import Mathlib

/-!
Verification development for the RustScan scripting engine
(`src/scripts/mod.rs`): descriptor parsing, tag-based selection,
template rendering, command tokenization and exit-status normalization,
shallowly embedded in Lean.

Rust strings are modelled as Lean `String`s; where Rust iterates over
characters we work on `String.data` (a `List Char`) with structural
recursion so that every definition evaluates by kernel reduction.
File and process I/O is passed in explicitly: file contents as
`Option (List String)` (the lines of the file, `none` for an open
failure) and a child process capture as `Except String CaptureData`.
-/

/-- The single-quote character; named to keep quote characters out of
character literals. -/
def chSq : Char := Char.ofNat 39

/-- The double-quote character. -/
def chDq : Char := Char.ofNat 34

/-- The backslash character. -/
def chBs : Char := Char.ofNat 92

/-- The backtick character. -/
def chBt : Char := Char.ofNat 96

/-- Models Rust `str::trim` on a character list (ASCII whitespace; the
header blobs and TOML lines handled here contain no exotic whitespace). -/
def trimChars (cs : List Char) : List Char :=
  ((cs.dropWhile Char.isWhitespace).reverse.dropWhile Char.isWhitespace).reverse

/-- Models Rust `str::starts_with` for a string pattern. -/
def strStartsWith (s pre : String) : Bool :=
  pre.data.isPrefixOf s.data

/-- Models Rust `str::contains` for a string pattern: `pat` occurs as a
contiguous substring of the character list. -/
def listContainsSub (pat : List Char) : List Char → Bool
  | [] => pat.isEmpty
  | c :: rest => pat.isPrefixOf (c :: rest) || listContainsSub pat rest

/-- Models Rust `str::split` on a single separator character: keeps empty
segments, so joining the segments with the separator is the identity. -/
def rustSplitChar (sep : Char) : List Char → List (List Char)
  | [] => [[]]
  | c :: rest =>
      let r := rustSplitChar sep rest
      if c = sep then [] :: r
      else
        match r with
        | [] => [[c]]
        | w :: ws => (c :: w) :: ws

/-- Plain concatenation of a list of strings (used to state the header
blob characterization). -/
def joinStrings : List String → String
  | [] => ""
  | s :: rest => s ++ joinStrings rest

/-- One script descriptor, as deserialized by serde from the header blob
(`struct ScriptFile`, mod.rs lines 287-295). `PathBuf` is modelled as
`String`. Every field is optional, exactly as in the source. -/
structure ScriptFile where
  path : Option String
  tags : Option (List String)
  developer : Option (List String)
  port : Option String
  ports_separator : Option String
  call_format : Option String
deriving Repr, DecidableEq

/-- The selection configuration (`struct ScriptConfig`, mod.rs lines
335-340), read from `.rustscan_scripts.toml`. -/
structure ScriptConfig where
  tags : Option (List String)
  ports : Option (List String)
  developer : Option (List String)
deriving Repr, DecidableEq

/-- Splits a TOML line at its first equals sign: `some (key, value)`
when an equals sign is present. -/
def splitFirstEq : List Char → Option (List Char × List Char)
  | [] => none
  | c :: rest =>
      if c = '=' then some ([], rest)
      else (splitFirstEq rest).map (fun p => (c :: p.1, p.2))

/-- Models a TOML basic string value: a double-quoted run with no inner
double quote (the descriptor headers in this codebase use no escape
sequences). Returns the content characters. -/
def parseTomlString (cs : List Char) : Option (List Char) :=
  match cs with
  | [] => none
  | c :: rest =>
      if c = chDq then
        match rest.reverse with
        | [] => none
        | d :: midRev =>
            if d = chDq && !(midRev.contains chDq) then some midRev.reverse
            else none
      else none

/-- Models a TOML array of basic strings: `[ "a", "b" ]`. Elements may
not contain commas or quotes (none in this codebase do). -/
def parseTomlArray (cs : List Char) : Option (List String) :=
  match cs with
  | [] => none
  | c :: rest =>
      if c = '[' then
        match rest.reverse with
        | [] => none
        | d :: innerRev =>
            if d = ']' then
              let inner := trimChars innerRev.reverse
              if inner.isEmpty then some []
              else
                (rustSplitChar ',' inner).foldr
                  (fun part acc =>
                    match acc, parseTomlString (trimChars part) with
                    | some xs, some x => some (String.mk x :: xs)
                    | _, _ => none)
                  (some [])
            else none
      else none

/-- Reads a TOML string value into a field, failing on a malformed value
or a duplicate key (toml rejects duplicate keys). -/
def tomlStringValue (v : List Char) (cur : Option String) : Except String String :=
  match parseTomlString v with
  | none => .error "invalid string value"
  | some s =>
      match cur with
      | some _ => .error "duplicate key"
      | none => .ok (String.mk s)

/-- Reads a TOML array value into a field, failing on a malformed value
or a duplicate key. -/
def tomlArrayValue (v : List Char) (cur : Option (List String)) :
    Except String (List String) :=
  match parseTomlArray v with
  | none => .error "invalid array value"
  | some xs =>
      match cur with
      | some _ => .error "duplicate key"
      | none => .ok xs

/-- Assigns one `key = value` pair into a partially built `ScriptFile`.
Unknown keys are ignored, as serde does by default (no
`deny_unknown_fields` on the struct). -/
def assignTomlKey (sf : ScriptFile) (key : String) (v : List Char) :
    Except String ScriptFile :=
  if key = "path" then
    match tomlStringValue v sf.path with
    | .ok s => .ok { sf with path := some s }
    | .error e => .error e
  else if key = "tags" then
    match tomlArrayValue v sf.tags with
    | .ok xs => .ok { sf with tags := some xs }
    | .error e => .error e
  else if key = "developer" then
    match tomlArrayValue v sf.developer with
    | .ok xs => .ok { sf with developer := some xs }
    | .error e => .error e
  else if key = "port" then
    match tomlStringValue v sf.port with
    | .ok s => .ok { sf with port := some s }
    | .error e => .error e
  else if key = "ports_separator" then
    match tomlStringValue v sf.ports_separator with
    | .ok s => .ok { sf with ports_separator := some s }
    | .error e => .error e
  else if key = "call_format" then
    match tomlStringValue v sf.call_format with
    | .ok s => .ok { sf with call_format := some s }
    | .error e => .error e
  else
    .ok sf

/-- Processes one line of the header blob: blank lines are skipped,
otherwise the line must be `key = value`. -/
def applyTomlLine (sf : ScriptFile) (line : List Char) :
    Except String ScriptFile :=
  let l := trimChars line
  if l.isEmpty then .ok sf
  else
    match splitFirstEq l with
    | none => .error "expected an equals sign"
    | some (k, v) => assignTomlKey sf (String.mk (trimChars k)) (trimChars v)

/-- Models `toml::from_str::<ScriptFile>` on the line-oriented key/value
documents produced by the header scrape (each line `key = value` with a
string or string-array value). An empty document succeeds with every
field `none`: serde fills `None` for a missing `Option` field. -/
def tomlParseScriptFile (blob : String) : Except String ScriptFile :=
  (rustSplitChar '\n' blob.data).foldl
    (fun acc l =>
      match acc with
      | .error e => .error e
      | .ok sf => applyTomlLine sf l)
    (.ok ⟨none, none, none, none, none, none⟩)

/-- The built-in default descriptor source (`static DEFAULT`, mod.rs
lines 57-61). -/
def DEFAULT : String :=
  "tags = [\"core_approved\", \"RustScan\", \"default\"]\ndeveloper = [ \"RustScan\", \"https://github.com/RustScan\" ]\nports_separator = \",\"\ncall_format = \"nmap -vvv -p \x7b\x7bport\x7d\x7d \x7b\x7bip\x7d\x7d\"\n"

/-- The parsed built-in default descriptor
(`toml::from_str::<ScriptFile>(&DEFAULT).expect(..)`, mod.rs line 70).
The fallback branch is unreachable: the parse of the fixed constant
succeeds (see `none_default_modes`). -/
def default_script : ScriptFile :=
  match tomlParseScriptFile DEFAULT with
  | .ok s => s
  | .error _ => ⟨none, none, none, none, none, none⟩

/-- The execution mode (`enum ScriptsRequired` in `crate::input`; modes
`none` / `default` / `custom` per the module documentation). -/
inductive ScriptsRequired
  | None
  | Default
  | Custom
deriving Repr, DecidableEq

/-- The per-descriptor test of the tag filter (mod.rs lines 99-111): the
descriptor's `tags` field must be present and every configured tag must
be a member of it. The source collects both tag lists into `HashSet`s
and uses `is_subset`; set conversion preserves membership, so the test
is `all`-membership of the configured tags in the descriptor's tags. -/
def script_matches (config_tags : List String) (script : ScriptFile) : Bool :=
  match script.tags with
  | some script_tags => config_tags.all (fun t => script_tags.contains t)
  | none => false

/-- The tag-filter loop of `init_scripts` in Custom mode (mod.rs lines
94-113): if the configuration carries no tags, nothing is pushed onto
`scripts_to_run`; otherwise each parsed descriptor passing
`script_matches` is pushed in order. -/
def select_scripts (script_config : ScriptConfig)
    (parsed_scripts : List ScriptFile) : List ScriptFile :=
  match script_config.tags with
  | some config_tags => parsed_scripts.filter (script_matches config_tags)
  | none => []

/-- The per-line transformation of `ScriptFile::new`'s header loop
(mod.rs lines 304-308): remove every hash character
(`line.retain(|c| c != a hash)`), trim, and append a newline. -/
def headerLine (line : String) : String :=
  String.mk (trimChars (line.data.filter (fun c => c != '#')) ++ ['\n'])

/-- The header accumulation loop of `ScriptFile::new` (mod.rs lines
302-313), applied to the lines after the skipped first line: while a
line starts with a hash, transform and accumulate it; the first
non-hash line stops accumulation for good. -/
def headerBlob : List String → String
  | [] => ""
  | line :: rest =>
      if strStartsWith line "#" then headerLine line ++ headerBlob rest
      else ""

/-- `ScriptFile::new` (mod.rs lines 298-332). The file system is passed
in as the file's lines (`none` models an open failure). The first line
is skipped unconditionally, the leading hash-comment block is scraped
into a blob, the blob is parsed as TOML, and on success the real path
is attached. Every failure yields `none`; no error propagates. -/
def ScriptFile.new (contents : Option (List String)) (real_path : String) :
    Option ScriptFile :=
  match contents with
  | none => none
  | some lines =>
      match tomlParseScriptFile (headerBlob (lines.drop 1)) with
      | .ok parsed => some { parsed with path := some real_path }
      | .error _ => none

/-- `parse_scripts` (mod.rs lines 120-129): parse each candidate path,
keeping the successes in order. `readFile` supplies each file's lines. -/
def parse_scripts (readFile : String → Option (List String)) :
    List String → List ScriptFile
  | [] => []
  | script :: rest =>
      match ScriptFile.new (readFile script) script with
      | some script_file => script_file :: parse_scripts readFile rest
      | none => parse_scripts readFile rest

/-- `init_scripts` (mod.rs lines 63-118). The I/O of Custom mode is
passed in: `script_paths` is the combined outcome of `dirs::home_dir()`
and `find_scripts` (an error models either failure), `script_config`
the outcome of `ScriptConfig::read_config`, and `readFile` the file
system seen by `parse_scripts`. `None` mode returns the empty vector;
`Default` mode parses the built-in `DEFAULT` descriptor (the `expect`
on that parse is unreachable, see `none_default_modes`). -/
def init_scripts (scripts : ScriptsRequired)
    (script_paths : Except String (List String))
    (script_config : Except String ScriptConfig)
    (readFile : String → Option (List String)) :
    Except String (List ScriptFile) :=
  match scripts with
  | .None => .ok []
  | .Default => .ok [default_script]
  | .Custom =>
      match script_paths with
      | .error e => .error e
      | .ok paths =>
          let parsed_scripts := parse_scripts readFile paths
          match script_config with
          | .error e => .error e
          | .ok config => .ok (select_scripts config parsed_scripts)

/-- A bound script (`struct Script`, mod.rs lines 131-153): one
descriptor's fields combined with the scan's address and open ports.
`IpAddr` is modelled by its textual form, the only use the module makes
of it (`self.ip.to_string()`); ports are `u16`, modelled as `Nat`. -/
structure Script where
  path : Option String
  ip : String
  open_ports : List Nat
  trigger_port : Option String
  ports_separator : Option String
  tags : Option (List String)
  call_format : Option String
deriving Repr, DecidableEq

/-- `Script::build` (mod.rs lines 169-187): pure field assembly. -/
def Script.build (path : Option String) (ip : String) (open_ports : List Nat)
    (trigger_port : Option String) (ports_separator : Option String)
    (tags : Option (List String)) (call_format : Option String) : Script :=
  ⟨path, ip, open_ports, trigger_port, ports_separator, tags, call_format⟩

/-- The port-string computation of `Script::run` (mod.rs lines 194-204):
join the open ports' decimal strings with the separator (default a
comma), then overwrite the result with `trigger_port` when present. -/
def Script.portsString (s : Script) : String :=
  let separator := s.ports_separator.getD ","
  let ports_str := String.intercalate separator
    (s.open_ports.map (fun port => toString port))
  match s.trigger_port with
  | some port => port
  | none => ports_str

/-- A token of a `text_placeholder` template: literal text or a
placeholder key found between double braces. -/
inductive TToken
  | text (cs : List Char)
  | key (cs : List Char)
deriving Repr, DecidableEq

/-- Scanner for `text_placeholder::Template::new` with the default
double-brace delimiters: splits the format into literal text and
placeholder keys. An unterminated opening delimiter is kept as literal
text. -/
def templateScan : List Char → Bool → List Char → List TToken → List TToken
  | [], false, acc, out => out ++ [.text acc]
  | [], true, acc, out => out ++ [.text ('{' :: '{' :: acc)]
  | '{' :: '{' :: rest, false, acc, out =>
      templateScan rest true [] (out ++ [.text acc])
  | '}' :: '}' :: rest, true, acc, out =>
      templateScan rest false [] (out ++ [.key acc])
  | c :: rest, inKey, acc, out => templateScan rest inKey (acc ++ [c]) out

/-- First-match lookup of a key among the serialized struct fields. -/
def lookupVal : List (String × String) → String → Option String
  | [], _ => none
  | (k, v) :: rest, key => if k = key then some v else lookupVal rest key

/-- Renders the scanned tokens: literal text is copied, each placeholder
key is replaced by its value, and a key with no value is an error —
`fill_with_struct` is strict, which is why an unsupported placeholder
makes the script fail rather than run. -/
def renderTokens (vals : List (String × String)) : List TToken → Except String String
  | [] => .ok ""
  | .text cs :: rest =>
      match renderTokens vals rest with
      | .ok tail => .ok (String.mk cs ++ tail)
      | .error e => .error e
  | .key cs :: rest =>
      match lookupVal vals (String.mk (trimChars cs)) with
      | none => .error ("unable to find a value for the key " ++ String.mk (trimChars cs))
      | some v =>
          match renderTokens vals rest with
          | .ok tail => .ok (v ++ tail)
          | .error e => .error e

/-- Models `Template::new(format).fill_with_struct(vals)` from the
`text_placeholder` crate: the struct is its list of field-name/value
pairs. -/
def fill_with_vals (vals : List (String × String)) (fmt : String) :
    Except String String :=
  renderTokens vals (templateScan fmt.data false [] [])

/-- The lexer states of `shell_words::split`. -/
inductive SplitState
  | Delimiter
  | Backslash
  | Unquoted
  | UnquotedBackslash
  | SingleQuoted
  | DoubleQuoted
  | DoubleQuotedBackslash
  | Comment
deriving Repr, DecidableEq

/-- The word-separator test of `shell_words::split`. -/
def isShellSpace (c : Char) : Bool :=
  c = ' ' || c = '\t' || c = '\n'

/-- The state machine of `shell_words::split`, one transition per input
character; ending inside a quoted region is the crate's mismatched-quote
parse error. -/
def split_words_aux : List Char → SplitState → String → List String →
    Except String (List String)
  | [], st, word, words =>
      match st with
      | .Delimiter => .ok words
      | .Backslash => .ok (words ++ [word.push chBs])
      | .Unquoted => .ok (words ++ [word])
      | .UnquotedBackslash => .ok (words ++ [word.push chBs])
      | .SingleQuoted => .error "missing closing quote"
      | .DoubleQuoted => .error "missing closing quote"
      | .DoubleQuotedBackslash => .error "missing closing quote"
      | .Comment => .ok words
  | c :: rest, st, word, words =>
      match st with
      | .Delimiter =>
          if c = chSq then split_words_aux rest .SingleQuoted word words
          else if c = chDq then split_words_aux rest .DoubleQuoted word words
          else if c = chBs then split_words_aux rest .Backslash word words
          else if isShellSpace c then split_words_aux rest .Delimiter word words
          else if c = '#' then split_words_aux rest .Comment word words
          else split_words_aux rest .Unquoted (word.push c) words
      | .Backslash =>
          if c = '\n' then split_words_aux rest .Delimiter word words
          else split_words_aux rest .Unquoted (word.push c) words
      | .Unquoted =>
          if c = chSq then split_words_aux rest .SingleQuoted word words
          else if c = chDq then split_words_aux rest .DoubleQuoted word words
          else if c = chBs then split_words_aux rest .UnquotedBackslash word words
          else if isShellSpace c then split_words_aux rest .Delimiter "" (words ++ [word])
          else split_words_aux rest .Unquoted (word.push c) words
      | .UnquotedBackslash =>
          if c = '\n' then split_words_aux rest .Unquoted word words
          else split_words_aux rest .Unquoted (word.push c) words
      | .SingleQuoted =>
          if c = chSq then split_words_aux rest .Unquoted word words
          else split_words_aux rest .SingleQuoted (word.push c) words
      | .DoubleQuoted =>
          if c = chDq then split_words_aux rest .Unquoted word words
          else if c = chBs then split_words_aux rest .DoubleQuotedBackslash word words
          else split_words_aux rest .DoubleQuoted (word.push c) words
      | .DoubleQuotedBackslash =>
          if c = '\n' then split_words_aux rest .DoubleQuoted word words
          else if c = '$' || c = chBt || c = chDq || c = chBs then
            split_words_aux rest .DoubleQuoted (word.push c) words
          else split_words_aux rest .DoubleQuoted ((word.push chBs).push c) words
      | .Comment =>
          if c = '\n' then split_words_aux rest .Delimiter word words
          else split_words_aux rest .Comment word words

/-- Models `shell_words::split`. -/
def shell_words_split (s : String) : Except String (List String) :=
  split_words_aux s.data .Delimiter "" []

/-- The outcome of `Script::run` up to the hand-off to `execute_script`:
`ok` carries the argument vector that would be spawned, `err` a
per-script `Err` return, `panicked` a whole-process panic (`unwrap` or
`expect`). -/
inductive RunResult
  | ok (arguments : List String)
  | err (msg : String)
  | panicked (msg : String)
deriving Repr, DecidableEq

/-- The tokenization step of `Script::run` (mod.rs lines 232-239): split
the rendered command on single spaces and re-join (an identity), then
tokenize with `shell_words::split`; a tokenization error is an `expect`
panic, not a per-script error. -/
def run_arguments (to_run : String) : RunResult :=
  let normalized := String.intercalate " "
    ((rustSplitChar ' ' to_run.data).map String.mk)
  match shell_words_split normalized with
  | .ok arguments => .ok arguments
  | .error _ => .panicked "Failed to parse script arguments"

/-- `Script::run` (mod.rs lines 191-245), up to the hand-off of the
argument vector to `execute_script`: derive the port string, require a
`call_format`, choose the substitution shape by the literal presence of
the script placeholder, fill the template (a fill error is returned via
the question-mark operator), and tokenize. When the format names the
script placeholder the source path is taken with `unwrap`, a panic when
the path is absent. -/
def Script.run (s : Script) : RunResult :=
  let ports_str := s.portsString
  match s.call_format with
  | none => .err "Failed to parse execution format."
  | some final_call_format =>
      if listContainsSub ("\x7b\x7bscript\x7d\x7d".data) final_call_format.data then
        match s.path with
        | none => .panicked "called Option::unwrap on a None value"
        | some path =>
            match fill_with_vals
                [("script", path), ("ip", s.ip), ("port", ports_str)]
                final_call_format with
            | .error e => .err e
            | .ok to_run => run_arguments to_run
      else
        match fill_with_vals [("ip", s.ip), ("port", ports_str)]
            final_call_format with
        | .error e => .err e
        | .ok to_run => run_arguments to_run

/-- `subprocess::ExitStatus`: normal exit (`u32`), signal (`u8`), other
raw status (`i32`), or an undetermined state. -/
inductive ExitStatus
  | Exited (code : Nat)
  | Signaled (signal : Nat)
  | Other (code : Int)
  | Undetermined
deriving Repr, DecidableEq

/-- The Rust cast `u32 as i32`: two's-complement reinterpretation. -/
def i32_of_u32 (c : Nat) : Int :=
  if c % 4294967296 < 2147483648 then ((c % 4294967296 : Nat) : Int)
  else ((c % 4294967296 : Nat) : Int) - 4294967296

/-- The Rust cast `u8 as i32`: always the identity on `0..256`. -/
def i32_of_u8 (c : Nat) : Int := ((c % 256 : Nat) : Int)

/-- The exit-status normalization of `execute_script` (mod.rs lines
254-259): exit code, signal number, raw status, and `-1` for the
wildcard (undetermined) arm. -/
def normalize_exit_status : ExitStatus → Int
  | .Exited c => i32_of_u32 c
  | .Signaled c => i32_of_u8 c
  | .Other c => c
  | .Undetermined => -1

/-- The successful result of `subprocess::Exec::capture`: the child's
termination status and its captured standard output. -/
structure CaptureData where
  exit_status : ExitStatus
  stdout_str : String
deriving Repr, DecidableEq

/-- `execute_script` (mod.rs lines 249-270), with the process spawn
abstracted as its capture outcome (`.error` models a failed capture,
e.g. a spawn failure): normalize the termination status, fail with the
normalized code when it is nonzero (discarding the captured output),
and return the captured stdout text when it is zero. -/
def execute_script (capture : Except String CaptureData) : Except String String :=
  match capture with
  | .ok c =>
      let es := normalize_exit_status c.exit_status
      if es ≠ 0 then .error ("Exit code = " ++ toString es)
      else .ok c.stdout_str
  | .error e => .error e

/-- Helper: the header accumulation loop is exactly the leading
contiguous hash-comment block, transformed per line and concatenated. -/
theorem headerBlob_takeWhile (ls : List String) :
    headerBlob ls =
      joinStrings ((ls.takeWhile (fun l => strStartsWith l "#")).map headerLine) := by
  induction ls with
  | nil => rfl
  | cons l rest ih =>
      unfold headerBlob
      cases hl : strStartsWith l "#" with
      | true => simp [List.takeWhile, hl, joinStrings, ih]
      | false => simp [List.takeWhile, hl, joinStrings]

/-- Helper: descriptor files are parsed independently, so one file's
outcome never disturbs the others. -/
theorem parse_scripts_append (rf : String → Option (List String))
    (ps qs : List String) :
    parse_scripts rf (ps ++ qs) = parse_scripts rf ps ++ parse_scripts rf qs := by
  induction ps with
  | nil => rfl
  | cons p rest ih =>
      cases h : ScriptFile.new (rf p) p with
      | none => simp [parse_scripts, h, ih]
      | some sf => simp [parse_scripts, h, ih]

/-- C1: in Custom mode, with `tags` present in the selection
configuration, a parsed descriptor is selected iff its own `tags` field
is present and every required tag is a member of it; extra descriptor
tags do not disqualify it, and a descriptor with an absent `tags` field
is never selected. -/
theorem custom_tag_filter_iff (config : ScriptConfig) (req : List String)
    (parsed : List ScriptFile) (s : ScriptFile) (h : config.tags = some req) :
    s ∈ select_scripts config parsed ↔
      s ∈ parsed ∧ ∃ ts, s.tags = some ts ∧ ∀ t ∈ req, t ∈ ts := by
  unfold select_scripts
  rw [h, List.mem_filter]
  constructor
  · rintro ⟨hmem, hsel⟩
    refine ⟨hmem, ?_⟩
    unfold script_matches at hsel
    cases hst : s.tags with
    | none => rw [hst] at hsel; cases hsel
    | some ts =>
        rw [hst] at hsel
        simp only [List.all_eq_true] at hsel
        refine ⟨ts, rfl, fun t ht => ?_⟩
        have := hsel t ht
        simpa [List.contains, List.elem_iff] using this
  · rintro ⟨hmem, ts, hts, hsub⟩
    refine ⟨hmem, ?_⟩
    unfold script_matches
    rw [hts]
    simp only [List.all_eq_true]
    intro t ht
    simpa [List.contains, List.elem_iff] using hsub t ht

/-- Witness for C1: required tags `a, b`; a descriptor tagged
`a, b, c` (a strict superset) is selected. -/
theorem custom_tag_filter_iff_witness :
    (⟨some "/s", some ["a", "b", "c"], none, none, none, some "x"⟩ : ScriptFile) ∈
      select_scripts ⟨some ["a", "b"], none, none⟩
        [⟨some "/s", some ["a", "b", "c"], none, none, none, some "x"⟩] :=
  (custom_tag_filter_iff ⟨some ["a", "b"], none, none⟩ ["a", "b"]
      [⟨some "/s", some ["a", "b", "c"], none, none, none, some "x"⟩]
      ⟨some "/s", some ["a", "b", "c"], none, none, none, some "x"⟩ rfl).mpr
    ⟨List.mem_singleton.mpr rfl, ["a", "b", "c"], rfl, by decide⟩

/-- C2: in Custom mode, when the selection configuration carries no
`tags`, no descriptor is selected, whatever the candidate files are:
absence means select none, not select all. -/
theorem custom_absent_tags_selects_none (paths : List String)
    (config : ScriptConfig) (rf : String → Option (List String))
    (h : config.tags = none) :
    init_scripts .Custom (.ok paths) (.ok config) rf = .ok [] := by
  simp [init_scripts, select_scripts, h]

/-- Witness for C2: a configuration without tags selects nothing even
though a well-formed tagged descriptor file is present. -/
theorem custom_absent_tags_selects_none_witness :
    init_scripts .Custom (.ok ["/home/u/.rustscan_scripts/t.sh"])
      (.ok ⟨none, none, none⟩)
      (fun _ => some ["#!/bin/sh", "# tags = [\"a\"]"]) = .ok [] :=
  custom_absent_tags_selects_none _ _ _ rfl

/-- C3: `init_scripts` in None mode returns the empty list and in
Default mode returns exactly the one built-in descriptor, whose parse
of the `DEFAULT` constant yields ports separator a comma and call
format the fixed nmap template. -/
theorem none_default_modes (sp : Except String (List String))
    (cfg : Except String ScriptConfig) (rf : String → Option (List String)) :
    init_scripts .None sp cfg rf = .ok [] ∧
    init_scripts .Default sp cfg rf = .ok [default_script] ∧
    tomlParseScriptFile DEFAULT = .ok default_script ∧
    default_script = ⟨none, some ["core_approved", "RustScan", "default"],
      some ["RustScan", "https://github.com/RustScan"], none, some ",",
      some "nmap -vvv -p \x7b\x7bport\x7d\x7d \x7b\x7bip\x7d\x7d"⟩ :=
  ⟨rfl, rfl, rfl, rfl⟩

/-- Witness for C3 at concrete environment inputs. -/
theorem none_default_modes_witness :
    init_scripts .None (.ok []) (.ok ⟨none, none, none⟩) (fun _ => none) = .ok [] ∧
    init_scripts .Default (.ok []) (.ok ⟨none, none, none⟩) (fun _ => none)
      = .ok [default_script] :=
  ⟨(none_default_modes (.ok []) (.ok ⟨none, none, none⟩) (fun _ => none)).1,
   (none_default_modes (.ok []) (.ok ⟨none, none, none⟩) (fun _ => none)).2.1⟩

/-- C4: the rendered port string is `trigger_port` verbatim when that
field is present, and otherwise the open ports' decimal strings joined
in their original order with the separator (a comma when absent) — for
every bound script, including an empty port list. -/
theorem port_string_rule :
    (∀ (s : Script) (t : String), s.trigger_port = some t → s.portsString = t) ∧
    (∀ s : Script, s.trigger_port = none →
        s.portsString = String.intercalate (s.ports_separator.getD ",")
          (s.open_ports.map (fun port => toString port))) := by
  constructor
  · intro s t h
    unfold Script.portsString
    rw [h]
  · intro s h
    unfold Script.portsString
    rw [h]

/-- Witness for C4: ports 80 and 443 with the default separator join to
"80,443"; a trigger port overrides the open ports; an empty port list
joins to the empty string. -/
theorem port_string_rule_witness :
    Script.portsString ⟨none, "1.1.1.1", [80, 443], none, none, none, none⟩
      = "80,443" ∧
    Script.portsString ⟨none, "1.1.1.1", [80, 443], some "9999", none, none, none⟩
      = "9999" ∧
    Script.portsString ⟨none, "1.1.1.1", [], none, none, none, none⟩ = "" :=
  ⟨(port_string_rule.2 ⟨none, "1.1.1.1", [80, 443], none, none, none, none⟩
      rfl).trans (by decide),
   port_string_rule.1 ⟨none, "1.1.1.1", [80, 443], some "9999", none, none, none⟩
      "9999" rfl,
   (port_string_rule.2 ⟨none, "1.1.1.1", [], none, none, none, none⟩
      rfl).trans (by decide)⟩

/-- C5: a bound script without a `call_format` fails at render time with
the exact error "Failed to parse execution format.", producing no
argument vector (no spawn) and no panic (per-script, not run-fatal). -/
theorem missing_call_format_errors (s : Script) (h : s.call_format = none) :
    Script.run s = .err "Failed to parse execution format." ∧
    (∀ args, Script.run s ≠ .ok args) ∧
    (∀ m, Script.run s ≠ .panicked m) := by
  have h1 : Script.run s = .err "Failed to parse execution format." := by
    unfold Script.run
    rw [h]
  refine ⟨h1, fun args hc => ?_, fun m hc => ?_⟩
  · rw [h1] at hc; cases hc
  · rw [h1] at hc; cases hc

/-- Witness for C5 at a concrete format-less bound script. -/
theorem missing_call_format_errors_witness :
    Script.run ⟨none, "1.1.1.1", [80], none, none, none, none⟩
      = .err "Failed to parse execution format." :=
  (missing_call_format_errors ⟨none, "1.1.1.1", [80], none, none, none, none⟩ rfl).1

/-- C6: the executor normalizes termination to an integer — a normal
exit gives its exit code, a signal gives the signal number, the
wildcard (undetermined) state gives -1, and a raw status its own code —
and returns the captured stdout iff the normalized code is zero,
otherwise an error carrying that code with the output discarded. -/
theorem exit_normalization_contract :
    (∀ c : Nat, c < 2147483648 → normalize_exit_status (.Exited c) = c) ∧
    (∀ c : Nat, c < 256 → normalize_exit_status (.Signaled c) = c) ∧
    (∀ c : Int, normalize_exit_status (.Other c) = c) ∧
    normalize_exit_status .Undetermined = -1 ∧
    (∀ cap : CaptureData, normalize_exit_status cap.exit_status = 0 →
        execute_script (.ok cap) = .ok cap.stdout_str) ∧
    (∀ cap : CaptureData, normalize_exit_status cap.exit_status ≠ 0 →
        execute_script (.ok cap) =
          .error ("Exit code = " ++ toString (normalize_exit_status cap.exit_status))) := by
  refine ⟨?_, ?_, fun c => rfl, rfl, ?_, ?_⟩
  · intro c h
    have h32 : c % 4294967296 = c := Nat.mod_eq_of_lt (by omega)
    simp [normalize_exit_status, i32_of_u32, h32, h]
  · intro c h
    have h8 : c % 256 = c := Nat.mod_eq_of_lt h
    simp [normalize_exit_status, i32_of_u8, h8]
  · intro cap h
    simp [execute_script, h]
  · intro cap h
    simp [execute_script, h]

/-- Witness for C6: exit code 0 returns the captured output, exit code 2
fails carrying the code, and normalization is the identity on code 2. -/
theorem exit_normalization_contract_witness :
    normalize_exit_status (.Exited 2) = 2 ∧
    execute_script (.ok ⟨.Exited 0, "scan output"⟩) = .ok "scan output" ∧
    execute_script (.ok ⟨.Exited 2, "scan output"⟩) =
      .error ("Exit code = " ++ toString (normalize_exit_status (.Exited 2))) :=
  ⟨exit_normalization_contract.1 2 (by decide),
   exit_normalization_contract.2.2.2.2.1 ⟨.Exited 0, "scan output"⟩ (by decide),
   exit_normalization_contract.2.2.2.2.2 ⟨.Exited 2, "scan output"⟩ (by decide)⟩

/-- C7 counterexample: a file whose second line is blank yields an empty
header blob, but the structured parse of the empty blob SUCCEEDS (all
fields absent, serde-style), and the file IS kept in the candidate
list with its path attached — it is not excluded. -/
theorem noncomment_second_line_counterexample :
    headerBlob ((["#!/bin/sh", "", "echo hi"]).drop 1) = "" ∧
    tomlParseScriptFile "" = .ok ⟨none, none, none, none, none, none⟩ ∧
    ScriptFile.new (some ["#!/bin/sh", "", "echo hi"])
        "/home/u/.rustscan_scripts/t.sh"
      = some ⟨some "/home/u/.rustscan_scripts/t.sh", none, none, none, none, none⟩ ∧
    parse_scripts
        (fun _ => some ["#!/bin/sh", "", "echo hi"])
        ["/home/u/.rustscan_scripts/t.sh"]
      = [⟨some "/home/u/.rustscan_scripts/t.sh", none, none, none, none, none⟩] :=
  ⟨rfl, rfl, rfl, rfl⟩

/-- C7 as amended: a descriptor file whose second line does not start
with a hash accumulates an empty header blob, parses successfully into
a descriptor whose only field is its attached path, is included in the
candidate list, and the parsing of other files continues unaffected. -/
theorem noncomment_second_line_included (l0 l1 : String) (rest : List String)
    (p : String) (h : strStartsWith l1 "#" = false) :
    headerBlob ((l0 :: l1 :: rest).drop 1) = "" ∧
    ScriptFile.new (some (l0 :: l1 :: rest)) p
      = some ⟨some p, none, none, none, none, none⟩ ∧
    (∀ (rf : String → Option (List String)) (ps qs : List String),
        parse_scripts rf (ps ++ qs) = parse_scripts rf ps ++ parse_scripts rf qs) := by
  have hb : headerBlob ((l0 :: l1 :: rest).drop 1) = "" := by
    simp [headerBlob, h]
  refine ⟨hb, ?_, parse_scripts_append⟩
  simp only [ScriptFile.new]
  rw [hb]
  rfl

/-- Witness for C7's amended statement at a concrete file. -/
theorem noncomment_second_line_included_witness :
    ScriptFile.new (some ["#!/usr/bin/python3", "import sys", "# x"]) "/q.py"
      = some ⟨some "/q.py", none, none, none, none, none⟩ :=
  (noncomment_second_line_included "#!/usr/bin/python3" "import sys" ["# x"]
    "/q.py" (by decide)).2.1

/-- C8: the descriptor parser returns an `Option` and never propagates
an error: an open failure yields `none`, a structured-parse failure of
the accumulated blob yields `none`, and on success the original path is
attached over the parsed record; the blob discards the first line and
is the leading contiguous hash block with hashes stripped, whitespace
trimmed and a newline appended per line, stopping at the first
non-hash line. -/
theorem descriptor_parser_contract :
    (∀ p, ScriptFile.new none p = none) ∧
    (∀ ls p e, tomlParseScriptFile (headerBlob (ls.drop 1)) = .error e →
        ScriptFile.new (some ls) p = none) ∧
    (∀ ls p r, ScriptFile.new (some ls) p = some r →
        r.path = some p ∧
        ∃ d, tomlParseScriptFile (headerBlob (ls.drop 1)) = .ok d ∧
          r = { d with path := some p }) ∧
    (∀ ls, headerBlob ls =
        joinStrings ((ls.takeWhile (fun l => strStartsWith l "#")).map headerLine)) ∧
    (∀ l, headerLine l =
        String.mk (trimChars (l.data.filter (fun c => c != '#')) ++ ['\n'])) := by
  refine ⟨fun p => rfl, ?_, ?_, headerBlob_takeWhile, fun l => rfl⟩
  · intro ls p e h
    simp only [ScriptFile.new]
    rw [h]
  · intro ls p r h
    simp only [ScriptFile.new] at h
    cases hp : tomlParseScriptFile (headerBlob (ls.drop 1)) with
    | error e => rw [hp] at h; cases h
    | ok d =>
        rw [hp] at h
        injection h with h
        subst h
        exact ⟨rfl, d, rfl, rfl⟩

/-- Witness for C8: a concrete open failure, and a concrete successful
parse whose result carries the attached path. -/
theorem descriptor_parser_contract_witness :
    ScriptFile.new none "/a" = none ∧
    ((⟨some "/p", none, none, none, some ",", none⟩ : ScriptFile).path = some "/p" ∧
      ∃ d, tomlParseScriptFile
          (headerBlob (((["#!/bin/sh", "# ports_separator = \",\""]).drop 1))) = .ok d ∧
        (⟨some "/p", none, none, none, some ",", none⟩ : ScriptFile)
          = { d with path := some "/p" }) :=
  ⟨descriptor_parser_contract.1 "/a",
   descriptor_parser_contract.2.2.1 ["#!/bin/sh", "# ports_separator = \",\""]
     "/p" ⟨some "/p", none, none, none, some ",", none⟩ rfl⟩

/-- C9: when the call format contains the script placeholder, rendering
needs the descriptor's source path; with the path absent the operation
fails (an `unwrap` panic before any substitution) and never executes,
and with a path present the three values script, ip and port are
substituted, as the closed instance shows. -/
theorem script_placeholder_requires_path (s : Script) (cf : String)
    (hcf : s.call_format = some cf)
    (hscript : listContainsSub ("\x7b\x7bscript\x7d\x7d".data) cf.data = true)
    (hpath : s.path = none) :
    Script.run s = .panicked "called Option::unwrap on a None value" ∧
    (∀ args, Script.run s ≠ .ok args) ∧
    Script.run ⟨some "/tmp/s.py", "1.2.3.4", [80], none, none, none,
        some "\x7b\x7bscript\x7d\x7d \x7b\x7bip\x7d\x7d \x7b\x7bport\x7d\x7d"⟩
      = .ok ["/tmp/s.py", "1.2.3.4", "80"] := by
  have h1 : Script.run s = .panicked "called Option::unwrap on a None value" := by
    unfold Script.run
    rw [hcf]
    simp only [hscript, if_true, hpath]
  refine ⟨h1, fun args hc => ?_, rfl⟩
  rw [h1] at hc
  cases hc

/-- Witness for C9: a concrete path-less bound script whose format
names the script placeholder panics instead of executing. -/
theorem script_placeholder_requires_path_witness :
    Script.run ⟨none, "127.0.0.1", [80], none, none, none,
        some "\x7b\x7bscript\x7d\x7d \x7b\x7bip\x7d\x7d \x7b\x7bport\x7d\x7d"⟩
      = .panicked "called Option::unwrap on a None value" :=
  (script_placeholder_requires_path
    ⟨none, "127.0.0.1", [80], none, none, none,
      some "\x7b\x7bscript\x7d\x7d \x7b\x7bip\x7d\x7d \x7b\x7bport\x7d\x7d"⟩
    "\x7b\x7bscript\x7d\x7d \x7b\x7bip\x7d\x7d \x7b\x7bport\x7d\x7d"
    rfl (by decide) rfl).1

/-- C10: tokenizing the rendered command is not total — a command
carrying an unbalanced single quote makes `shell_words::split` fail,
which `Script::run` turns into an `expect` panic that aborts the whole
run rather than a per-script error value. -/
theorem tokenization_panics_on_unbalanced_quote :
    Script.run ⟨none, "127.0.0.1", [80], none, none, none,
        some ("echo " ++ (Char.ofNat 39).toString)⟩
      = .panicked "Failed to parse script arguments" ∧
    shell_words_split ("echo " ++ (Char.ofNat 39).toString)
      = .error "missing closing quote" :=
  ⟨rfl, rfl⟩
